import Mathlib

/-!
Verification of the fraud-detection core pipeline
(detection → investigation → decision → case assembly).

Shallow embedding of `app/agents_detection.py`, `app/agents_investigation.py`,
`app/agents_decision.py` and `app/pipeline.py`.

Modelling conventions:
* Python dict fields accessed with `txn[...]` (always present per the data
  model) are plain fields; fields accessed with `txn.get(...)` (may be
  absent) are `Option` fields, with `none` for an absent key.
* Python floats carrying monetary amounts are modelled as `ℚ`;
  scores are `ℤ` (grade A contributes -5).
* Python `round(x, 2)` (round-half-to-even on the second decimal) is
  modelled exactly by `round2`.
-/

namespace FraudCore

/-- A transaction record (the subset of fields the core pipeline reads).
Fields read via `dict.get` in the source are `Option`-valued. -/
structure Txn where
  account_id : String
  device_id : String
  ip_address : String
  amount : ℚ
  country : String
  channel : String
  customer_grade : Option String
  home_country : Option String
  transaction_type : Option String
  transaction_status : Option String
  deriving Repr, DecidableEq

/-- Result of the risk scorer: `{"risk_score": ..., "risk_level": ..., "reasons": ...}`. -/
structure RiskAssessment where
  risk_score : ℤ
  risk_level : String
  reasons : List String
  deriving Repr, DecidableEq

/-- The table `GRADE_RISK = {"A": -5, "B": 0, "C": 8, "D": 15}`, looked up with
`GRADE_RISK.get(g, 0)`. -/
def gradeRisk (g : String) : ℤ :=
  if g = "A" then -5 else if g = "B" then 0 else if g = "C" then 8
  else if g = "D" then 15 else 0

/-- The set `HIGH_RISK_TYPES = {"P2P_SEND", "CASHOUT"}` -/
def HIGH_RISK_TYPES : List String := ["P2P_SEND", "CASHOUT"]

/-- The set `MED_RISK_TYPES = {"CASHIN", "MERCHPAY"}` -/
def MED_RISK_TYPES : List String := ["CASHIN", "MERCHPAY"]

/-- The set `HIGH_RISK_STATUS = {"chargeback"}` -/
def HIGH_RISK_STATUS : List String := ["chargeback"]

/-- The set `SOFT_RISK_STATUS = {"reversed", "declined"}` -/
def SOFT_RISK_STATUS : List String := ["reversed", "declined"]

/-- The final level derivation at the end of `score_risk`:
`>= 85 → CRITICAL`, `>= 60 → HIGH`, `>= 35 → MEDIUM`, else `LOW`. -/
def riskLevel (score : ℤ) : String :=
  if score ≥ 85 then "CRITICAL"
  else if score ≥ 60 then "HIGH"
  else if score ≥ 35 then "MEDIUM"
  else "LOW"

/-- Rank of a level in the total order LOW < MEDIUM < HIGH < CRITICAL. -/
def levelRank (level : String) : ℕ :=
  if level = "LOW" then 0 else if level = "MEDIUM" then 1
  else if level = "HIGH" then 2 else if level = "CRITICAL" then 3 else 0

/-- The scorer `score_risk(txn)` from `app/agents_detection.py`: additive scoring over
grade, channel, geo mismatch, transaction type, status, amount tier and the
probe signal, then threshold levelling. Scores are accumulated with `+=` in
the source; here each factor is a separate summand in source order. -/
def score_risk (txn : Txn) : RiskAssessment :=
  let g := txn.customer_grade.getD "B"
  let ttype := txn.transaction_type.getD "MERCHPAY"
  let st := txn.transaction_status.getD "approved"
  let amt := txn.amount
  let gradeScore := gradeRisk g
  let gradeReasons := if g = "C" ∨ g = "D" then ["Lower customer grade: " ++ g] else []
  let channelScore : ℤ := if txn.channel = "card_not_present" then 18 else 0
  let channelReasons := if txn.channel = "card_not_present" then ["Card-not-present"] else []
  let geoScore : ℤ := if (some txn.country : Option String) ≠ txn.home_country then 22 else 0
  let geoReasons := if (some txn.country : Option String) ≠ txn.home_country then ["Geo mismatch vs home"] else []
  let typeScore : ℤ := if ttype ∈ HIGH_RISK_TYPES then 14 else if ttype ∈ MED_RISK_TYPES then 7 else 0
  let typeReasons :=
    if ttype ∈ HIGH_RISK_TYPES then ["High-risk transaction type: " ++ ttype]
    else if ttype ∈ MED_RISK_TYPES then ["Medium-risk transaction type: " ++ ttype] else []
  let statusScore : ℤ := if st ∈ HIGH_RISK_STATUS then 35 else if st ∈ SOFT_RISK_STATUS then 8 else 0
  let statusReasons :=
    if st ∈ HIGH_RISK_STATUS then ["Fraud-confirming status: " ++ st]
    else if st ∈ SOFT_RISK_STATUS then ["Suspicious status: " ++ st] else []
  let amountScore : ℤ := if amt ≥ 800 then 25 else if amt ≥ 300 then 12 else 0
  let amountReasons :=
    if amt ≥ 800 then ["High amount >= 800"]
    else if amt ≥ 300 then ["Amount >= 300"] else []
  let probeScore : ℤ :=
    if ttype = "AIRTIME_RECHARGE" ∧ amt ≤ 2 ∧ txn.channel = "card_not_present" then 18 else 0
  let probeReasons :=
    if ttype = "AIRTIME_RECHARGE" ∧ amt ≤ 2 ∧ txn.channel = "card_not_present"
    then ["Probe-like small airtime recharge"] else []
  let score := gradeScore + channelScore + geoScore + typeScore + statusScore + amountScore + probeScore
  { risk_score := score
    risk_level := riskLevel score
    reasons := gradeReasons ++ channelReasons ++ geoReasons ++ typeReasons
      ++ statusReasons ++ amountReasons ++ probeReasons }

/-- Round-half-to-even to an integer (Python's built-in `round` on exact
values). -/
def roundHE (x : ℚ) : ℤ :=
  let f := ⌊x⌋
  if x - f < 1/2 then f
  else if x - f > 1/2 then f + 1
  else if Even f then f else f + 1

/-- Python's `round(x, 2)`: round half-to-even at the second decimal. -/
def round2 (x : ℚ) : ℚ := (roundHE (x * 100) : ℚ) / 100

/-- Python's `statistics.mean` on a list (only applied to non-empty lists in the
source). -/
def listMean (l : List ℚ) : ℚ := l.sum / l.length

/-- Python's built-in `max` on a non-empty list. -/
def listMax : List ℚ → ℚ
  | [] => 0
  | x :: xs => xs.foldl max x

/-- The keys of a list in first-encounter order (iteration order of a
Python `Counter` built from the list). -/
def firstKeys {α : Type} [DecidableEq α] : List α → List α
  | [] => []
  | a :: rest => a :: firstKeys (rest.filter (fun b => b ≠ a))
  termination_by l => l.length
  decreasing_by
    simp only [List.length_cons]
    exact Nat.lt_succ_of_le (List.length_filter_le _ _)

/-- Python's `collections.Counter(l)` as an association list in first-encounter key
order. -/
def counterList {α : Type} [DecidableEq α] (l : List α) : List (α × ℕ) :=
  (firstKeys l).map (fun a => (a, l.countP (fun b => decide (b = a))))

/-- Stable insertion into a count-descending list: the new pair goes after
every existing pair with a count ≥ its own (ties keep encounter order, as
Python's stable sort in `Counter.most_common` does). -/
def insertByCount {α : Type} (p : α × ℕ) : List (α × ℕ) → List (α × ℕ)
  | [] => [p]
  | q :: rest => if q.2 < p.2 then p :: q :: rest else q :: insertByCount p rest

/-- Python's `Counter(l).most_common(n)`: pairs sorted by count descending (stable
over first-encounter order), truncated to `n`. -/
def mostCommon {α : Type} [DecidableEq α] (l : List α) (n : ℕ) : List (α × ℕ) :=
  ((counterList l).foldl (fun acc p => insertByCount p acc) []).take n

/-- The evidence dict produced by `build_evidence` in
`app/agents_investigation.py`. -/
structure Evidence where
  risk_reasons : List String
  risk_score : ℤ
  risk_level : String
  recent_account_txn_count : ℕ
  reuse_sample_count : ℕ
  acct_avg_amount_80 : ℚ
  acct_max_amount_80 : ℚ
  velocity_proxy_15 : ℕ
  acct_status_counts : List (Option String × ℕ)
  acct_type_counts : List (Option String × ℕ)
  ip_or_device_reuse_accounts_top : List (String × ℕ)
  amount_vs_baseline_ratio : Option ℚ
  deriving Repr, DecidableEq

/-- The evidence builder `build_evidence(txn, risk, recent_account_txns, reuse_txns)` from
`app/agents_investigation.py`. -/
def build_evidence (txn : Txn) (risk : RiskAssessment)
    (recent_account_txns reuse_txns : List Txn) : Evidence :=
  let recent_amounts :=
    if recent_account_txns.isEmpty then []
    else (recent_account_txns.take 80).map (fun t => t.amount)
  let avg := if recent_amounts.isEmpty then 0 else round2 (listMean recent_amounts)
  let mx := if recent_amounts.isEmpty then 0 else round2 (listMax recent_amounts)
  let amt := txn.amount
  { risk_reasons := risk.reasons
    risk_score := risk.risk_score
    risk_level := risk.risk_level
    recent_account_txn_count := recent_account_txns.length
    reuse_sample_count := reuse_txns.length
    acct_avg_amount_80 := avg
    acct_max_amount_80 := mx
    velocity_proxy_15 := min recent_account_txns.length 15
    acct_status_counts := counterList (recent_account_txns.map (fun t => t.transaction_status))
    acct_type_counts := counterList (recent_account_txns.map (fun t => t.transaction_type))
    ip_or_device_reuse_accounts_top := mostCommon (reuse_txns.map (fun t => t.account_id)) 6
    amount_vs_baseline_ratio := if avg > 0 then some (round2 (amt / avg)) else none }

/-- The rationale generator `investigator_rationale(txn, risk, evidence)` from
`app/agents_investigation.py`: sequential appends to an initially
one-element list. -/
def investigator_rationale (txn : Txn) (risk : RiskAssessment) (evidence : Evidence) :
    List String :=
  let r0 := ["Risk " ++ risk.risk_level ++ " (score=" ++ toString risk.risk_score ++ ")."]
  let r1 := if (some txn.country : Option String) ≠ txn.home_country
            then r0 ++ ["Geo mismatch relative to account profile."] else r0
  let r2 := match evidence.amount_vs_baseline_ratio with
            | some ratio =>
                if ratio ≥ 3 then r1 ++ ["Amount significantly above account baseline (>=3x)."]
                else r1
            | none => r1
  let r3 := if evidence.velocity_proxy_15 ≥ 12
            then r2 ++ ["High velocity behavior consistent with burst activity."] else r2
  let r4 := if (txn.transaction_type = some "P2P_SEND" ∨ txn.transaction_type = some "CASHOUT")
               ∧ txn.channel = "card_not_present"
            then r3 ++ ["High-risk type combined with CNP channel increases fraud likelihood."]
            else r3
  let r5 := match evidence.ip_or_device_reuse_accounts_top with
            | [] => r4
            | top :: _ =>
                if top.2 ≥ 6
                then r4 ++ ["IP/device reuse pattern across multiple accounts is suspicious."]
                else r4
  let r6 := if txn.transaction_status = some "chargeback"
            then r5 ++ ["Chargeback observed (strong fraud confirmation signal)."] else r5
  r6

/-- The decision dict of `decide` in `app/agents_decision.py`. -/
structure Decision where
  decision : String
  recommended_action : String
  deriving Repr, DecidableEq

/-- The decision engine `decide(txn, risk, evidence)` from `app/agents_decision.py`:
decision/action start at APPROVE / "No action" and each subsequent rule
that fires overwrites them (last applicable rule wins). -/
def decide (txn : Txn) (risk : RiskAssessment) (evidence : Evidence) : Decision :=
  let d0 : Decision := { decision := "APPROVE", recommended_action := "No action" }
  let d1 :=
    if risk.risk_level = "CRITICAL" then
      { decision := "BLOCK"
        recommended_action := "Block transaction + lock account + step-up verification" }
    else if risk.risk_level = "HIGH" then
      { decision := "REVIEW"
        recommended_action := "Queue for manual review + step-up verification" }
    else d0
  let d2 :=
    if txn.transaction_status = some "chargeback" then
      { decision := "BLOCK"
        recommended_action := "Confirmed fraud signal (chargeback): block + lock + investigation" }
    else d1
  let d3 :=
    if txn.channel = "card_not_present" ∧ (some txn.country : Option String) ≠ txn.home_country
       ∧ evidence.velocity_proxy_15 ≥ 12 then
      { decision := "BLOCK"
        recommended_action := "High-confidence fraud: CNP + geo mismatch + velocity" }
    else d2
  let d4 :=
    match evidence.amount_vs_baseline_ratio with
    | some ratio =>
        if ratio ≥ 6 then
          { decision := "BLOCK"
            recommended_action := "High-confidence fraud: amount extremely above baseline" }
        else d3
    | none => d3
  d4

/-- The case record assembled by `process_txn` (pipeline-generated
`case_id`, timestamps and report artifacts come from external
collaborators and are omitted). -/
structure CaseRec where
  txn : Txn
  decision : String
  recommended_action : String
  evidence : Evidence
  rationale : List String
  deriving Repr, DecidableEq

/-- The alert event emitted alongside a created case. -/
structure AlertEvent where
  decision : String
  risk_level : String
  risk_score : ℤ
  deriving Repr, DecidableEq

/-- Result of processing one transaction: the risk assessment attached to
the transaction event, plus the case and alert when one is created. -/
structure ProcessResult where
  risk : RiskAssessment
  case : Option CaseRec
  alert_event : Option AlertEvent
  deriving Repr, DecidableEq

/-- The orchestrator `process_txn(txn)` from `app/pipeline.py`, with the two historical
windows (fetched from the database in the source) passed as inputs. -/
def process_txn (txn : Txn) (recent reuse : List Txn) : ProcessResult :=
  let risk := score_risk txn
  if risk.risk_level = "HIGH" ∨ risk.risk_level = "CRITICAL" then
    let evidence := build_evidence txn risk recent reuse
    let rationale := investigator_rationale txn risk evidence
    let dec := decide txn risk evidence
    { risk := risk
      case := some { txn := txn, decision := dec.decision
                     recommended_action := dec.recommended_action
                     evidence := evidence, rationale := rationale }
      alert_event := some { decision := dec.decision, risk_level := risk.risk_level
                            risk_score := risk.risk_score } }
  else
    { risk := risk, case := none, alert_event := none }

/-! ### Sample inputs used by witnesses -/

/-- The spec's worked example: amount 900, CNP channel, geo mismatch,
P2P_SEND, approved, grade B (score 79, HIGH). -/
def sampleHighTxn : Txn :=
  { account_id := "7712-3456", device_id := "dev-1", ip_address := "10.0.0.1"
    amount := 900, country := "US", channel := "card_not_present"
    customer_grade := some "B", home_country := some "KE"
    transaction_type := some "P2P_SEND", transaction_status := some "approved" }

/-- A benign transaction: no factor fires, score 0, LOW. -/
def sampleLowTxn : Txn :=
  { account_id := "7712-0001", device_id := "dev-2", ip_address := "10.0.0.2"
    amount := 10, country := "KE", channel := "card_present"
    customer_grade := some "B", home_country := some "KE"
    transaction_type := some "BILLPAY", transaction_status := some "approved" }

/-! ### C1: level thresholds -/

/-- C1: For every transaction, the level returned by `score_risk` is
`riskLevel` of its total score, and `riskLevel` maps scores by the ordered
thresholds 35/60/85: below 35 → LOW, [35,60) → MEDIUM, [60,85) → HIGH,
and ≥ 85 always CRITICAL with no ceiling; the mapping is monotonic in the
score (no overlap, no re-descent). -/
theorem score_risk_level_thresholds :
    (∀ txn : Txn, (score_risk txn).risk_level = riskLevel (score_risk txn).risk_score) ∧
    (∀ s : ℤ, s < 35 → riskLevel s = "LOW") ∧
    (∀ s : ℤ, 35 ≤ s → s < 60 → riskLevel s = "MEDIUM") ∧
    (∀ s : ℤ, 60 ≤ s → s < 85 → riskLevel s = "HIGH") ∧
    (∀ s : ℤ, 85 ≤ s → riskLevel s = "CRITICAL") ∧
    (∀ s t : ℤ, s ≤ t → levelRank (riskLevel s) ≤ levelRank (riskLevel t)) := by
  refine ⟨fun txn => rfl, ?_, ?_, ?_, ?_, ?_⟩ <;>
    first
      | (intro s h
         unfold riskLevel
         split_ifs <;> first | rfl | omega)
      | (intro s h h2
         unfold riskLevel
         split_ifs <;> first | rfl | omega)
      | (intro s t h
         unfold riskLevel
         split_ifs <;> first | decide | (exfalso; omega))

/-- Witness for C1 at concrete scores. -/
theorem score_risk_level_thresholds_witness :
    riskLevel 34 = "LOW" ∧ riskLevel 35 = "MEDIUM" ∧ riskLevel 60 = "HIGH" ∧
    riskLevel 10085 = "CRITICAL" ∧ levelRank (riskLevel (-5)) ≤ levelRank (riskLevel 90) :=
  ⟨score_risk_level_thresholds.2.1 34 (by decide),
   score_risk_level_thresholds.2.2.1 35 (by decide) (by decide),
   score_risk_level_thresholds.2.2.2.1 60 (by decide) (by decide),
   score_risk_level_thresholds.2.2.2.2.1 10085 (by decide),
   score_risk_level_thresholds.2.2.2.2.2 (-5) 90 (by decide)⟩

/-! ### C2: totality and field defaults -/

/-- C2: `score_risk` is a total function of its input (it is defined for
every `Txn` and always yields a `RiskAssessment`), and the optional fields
behave exactly as the documented defaults: a transaction with absent
grade / type / status scores identically to the same transaction with
grade "B", type "MERCHPAY" and status "approved" filled in. -/
theorem score_risk_total_defaults :
    ∀ txn : Txn,
      score_risk txn =
        score_risk { txn with
          customer_grade := some (txn.customer_grade.getD "B")
          transaction_type := some (txn.transaction_type.getD "MERCHPAY")
          transaction_status := some (txn.transaction_status.getD "approved") } := by
  intro txn
  rcases txn with ⟨aid, did, ip, amt, co, ch, g, hc, tt, ts⟩
  cases g <;> cases tt <;> cases ts <;> rfl

/-! ### C8: empty windows -/

/-- C8: For every transaction and risk input, `build_evidence` on two empty
windows returns zero-valued / null / empty aggregates in every derived
field, and never fails (it is a total function). -/
theorem build_evidence_empty_windows :
    ∀ (txn : Txn) (risk : RiskAssessment),
      (build_evidence txn risk [] []).acct_avg_amount_80 = 0 ∧
      (build_evidence txn risk [] []).acct_max_amount_80 = 0 ∧
      (build_evidence txn risk [] []).velocity_proxy_15 = 0 ∧
      (build_evidence txn risk [] []).amount_vs_baseline_ratio = none ∧
      (build_evidence txn risk [] []).acct_status_counts = [] ∧
      (build_evidence txn risk [] []).acct_type_counts = [] ∧
      (build_evidence txn risk [] []).ip_or_device_reuse_accounts_top = [] := by
  intro txn risk
  refine ⟨rfl, rfl, rfl, ?_, ?_, ?_, ?_⟩ <;>
    simp [build_evidence, counterList, firstKeys, mostCommon]

/-! ### C5: case-creation gating -/

/-- C5: `process_txn` creates a case (and emits an alert event) exactly
when the computed risk level is HIGH or CRITICAL; for LOW or MEDIUM levels
neither a case nor an alert is produced, only the risk assessment. -/
theorem process_txn_case_gating :
    ∀ (txn : Txn) (recent reuse : List Txn),
      ((process_txn txn recent reuse).case.isSome ↔
        ((score_risk txn).risk_level = "HIGH" ∨ (score_risk txn).risk_level = "CRITICAL")) ∧
      ((process_txn txn recent reuse).alert_event.isSome ↔
        ((score_risk txn).risk_level = "HIGH" ∨ (score_risk txn).risk_level = "CRITICAL")) ∧
      ((process_txn txn recent reuse).risk = score_risk txn) ∧
      (((score_risk txn).risk_level = "LOW" ∨ (score_risk txn).risk_level = "MEDIUM") →
        (process_txn txn recent reuse).case = none ∧
        (process_txn txn recent reuse).alert_event = none) := by
  intro txn recent reuse
  by_cases h : (score_risk txn).risk_level = "HIGH" ∨ (score_risk txn).risk_level = "CRITICAL"
  · refine ⟨?_, ?_, ?_, ?_⟩
    · simp [process_txn, h]
    · simp [process_txn, h]
    · simp [process_txn, h]
    · rintro (hl | hl) <;> rcases h with h | h <;> rw [hl] at h <;> exact absurd h (by decide)
  · refine ⟨?_, ?_, ?_, ?_⟩
    · simp [process_txn, h]
    · simp [process_txn, h]
    · simp [process_txn, h]
    · intro _
      simp [process_txn, h]

/-- Witness for C5: the spec's worked HIGH example creates a case, the
benign LOW example does not. -/
theorem process_txn_case_gating_witness :
    ((process_txn sampleHighTxn [] []).case.isSome = true) ∧
    ((process_txn sampleLowTxn [] []).case = none) ∧
    ((process_txn sampleLowTxn [] []).alert_event = none) :=
  ⟨(process_txn_case_gating sampleHighTxn [] []).1.mpr (Or.inl (by rfl)),
   ((process_txn_case_gating sampleLowTxn [] []).2.2.2 (Or.inl (by rfl))).1,
   ((process_txn_case_gating sampleLowTxn [] []).2.2.2 (Or.inl (by rfl))).2⟩

/-! ### C7: non-cumulative amount tiers -/

/-- A string is never equal to a longer prefix followed by anything. -/
lemma ne_append_of_length_lt (a p g : String) (h : a.length < p.length) : a ≠ p ++ g := by
  intro e
  have h2 := congrArg String.length e
  rw [String.length_append] at h2
  omega

/-- C7: Amount tiering in `score_risk` is non-cumulative: a transaction at
or above the 800 breakpoint receives exactly the highest tier's delta of
25 over the same transaction with an amount below both breakpoints, gains
the high-tier reason, and does not also gain the lower tier's
"Amount >= 300" reason. -/
theorem score_risk_amount_tier_noncumulative :
    ∀ txn : Txn, txn.amount ≥ 800 →
      (score_risk txn).risk_score = (score_risk { txn with amount := 100 }).risk_score + 25 ∧
      "High amount >= 800" ∈ (score_risk txn).reasons ∧
      "Amount >= 300" ∉ (score_risk txn).reasons := by
  intro txn h800
  rcases txn with ⟨aid, did, ip, amt, co, ch, g, hc, tt, ts⟩
  dsimp only at h800
  have hprobe : ¬(tt.getD "MERCHPAY" = "AIRTIME_RECHARGE" ∧ amt ≤ 2 ∧ ch = "card_not_present") := by
    rintro ⟨-, h2, -⟩
    linarith
  have hprobe100 : ¬(tt.getD "MERCHPAY" = "AIRTIME_RECHARGE" ∧ (100:ℚ) ≤ 2 ∧ ch = "card_not_present") := by
    rintro ⟨-, h2, -⟩
    norm_num at h2
  have h100a : ¬((100:ℚ) ≥ 800) := by norm_num
  have h100b : ¬((100:ℚ) ≥ 300) := by norm_num
  refine ⟨?_, ?_, ?_⟩
  · simp only [score_risk, if_pos h800, if_neg hprobe, if_neg hprobe100, if_neg h100a, if_neg h100b]
    ring
  · simp only [score_risk, if_pos h800, if_neg hprobe]
    simp [List.mem_append]
  · simp only [score_risk, if_pos h800, if_neg hprobe]
    simp only [List.append_nil, List.mem_append, not_or]
    refine ⟨⟨⟨⟨⟨?_, ?_⟩, ?_⟩, ?_⟩, ?_⟩, ?_⟩ <;>
      first
        | decide
        | (split_ifs <;> simp <;> exact ne_append_of_length_lt _ _ _ (by decide))

/-- Witness for C7: the claim's example amount 1000 gets only the 25 delta
and only the high-tier reason. -/
theorem score_risk_amount_tier_noncumulative_witness :
    ({ sampleHighTxn with amount := (1000:ℚ) }).amount ≥ 800 ∧
    "High amount >= 800" ∈ (score_risk { sampleHighTxn with amount := 1000 }).reasons ∧
    "Amount >= 300" ∉ (score_risk { sampleHighTxn with amount := 1000 }).reasons :=
  ⟨by decide,
   (score_risk_amount_tier_noncumulative { sampleHighTxn with amount := 1000 } (by decide)).2.1,
   (score_risk_amount_tier_noncumulative { sampleHighTxn with amount := 1000 } (by decide)).2.2⟩

/-! ### C10: missing transaction type defaults to MERCHPAY -/

/-- C10: A transaction with an absent `transaction_type` scores exactly as
if its type were "MERCHPAY"; since "MERCHPAY" is a medium-risk type this
contributes the +7 delta (compared with a type in no risk set) and the
"Medium-risk transaction type: MERCHPAY" reason — never a
zero-contribution case. -/
theorem score_risk_missing_type_merchpay :
    ∀ txn : Txn, txn.transaction_type = none →
      score_risk txn = score_risk { txn with transaction_type := some "MERCHPAY" } ∧
      (score_risk txn).risk_score
        = (score_risk { txn with transaction_type := some "UNKNOWN_TYPE" }).risk_score + 7 ∧
      "Medium-risk transaction type: MERCHPAY" ∈ (score_risk txn).reasons := by
  intro txn ht
  rcases txn with ⟨aid, did, ip, amt, co, ch, g, hc, tt, ts⟩
  dsimp only at ht
  subst ht
  refine ⟨rfl, ?_, ?_⟩
  · simp [score_risk, HIGH_RISK_TYPES, MED_RISK_TYPES]
    ring
  · simp [score_risk, HIGH_RISK_TYPES, MED_RISK_TYPES, List.mem_append]

/-- Witness for C10 on a concrete typeless transaction. -/
theorem score_risk_missing_type_merchpay_witness :
    "Medium-risk transaction type: MERCHPAY"
      ∈ (score_risk { sampleLowTxn with transaction_type := none }).reasons :=
  (score_risk_missing_type_merchpay { sampleLowTxn with transaction_type := none } rfl).2.2

/-! ### C4: baseline ratio null exactly when the average is zero -/

/-- Half-to-even rounding of a non-negative value is non-negative. -/
lemma roundHE_nonneg {x : ℚ} (h : 0 ≤ x) : 0 ≤ roundHE x := by
  have hf : (0:ℤ) ≤ ⌊x⌋ := Int.floor_nonneg.mpr h
  simp only [roundHE]
  split_ifs <;> omega

/-- Rounding via `round2` of a non-negative value is non-negative. -/
lemma round2_nonneg {x : ℚ} (h : 0 ≤ x) : 0 ≤ round2 x := by
  unfold round2
  have h2 : (0:ℤ) ≤ roundHE (x * 100) := roundHE_nonneg (by positivity)
  have h3 : (0:ℚ) ≤ (roundHE (x * 100) : ℚ) := by exact_mod_cast h2
  positivity

/-- The mean of a list of non-negative values is non-negative. -/
lemma listMean_nonneg {l : List ℚ} (h : ∀ x ∈ l, 0 ≤ x) : 0 ≤ listMean l := by
  unfold listMean
  exact div_nonneg (List.sum_nonneg h) (by positivity)

/-- With non-negative amounts in the window, the stored 80-sample average
is non-negative. -/
lemma build_evidence_avg_nonneg (txn : Txn) (risk : RiskAssessment)
    (recent reuse : List Txn) (h : ∀ t ∈ recent, 0 ≤ t.amount) :
    0 ≤ (build_evidence txn risk recent reuse).acct_avg_amount_80 := by
  rcases recent with _ | ⟨t0, rest⟩
  · simp [build_evidence]
  · have hmem : ∀ x ∈ (List.take 80 (t0 :: rest)).map (fun t => t.amount), 0 ≤ x := by
      intro x hx
      rcases List.mem_map.mp hx with ⟨t, ht, rfl⟩
      exact h t (List.take_subset 80 _ ht)
    have hne : ((List.take 80 (t0 :: rest)).map (fun t => t.amount)).isEmpty = false := by
      simp
    simp only [build_evidence, List.isEmpty_cons, Bool.false_eq_true, if_false, hne]
    exact round2_nonneg (listMean_nonneg hmem)

/-- The ratio field is the guarded division over the stored average. -/
lemma build_evidence_ratio_eq (txn : Txn) (risk : RiskAssessment) (recent reuse : List Txn) :
    (build_evidence txn risk recent reuse).amount_vs_baseline_ratio =
      if (build_evidence txn risk recent reuse).acct_avg_amount_80 > 0
      then some (round2 (txn.amount / (build_evidence txn risk recent reuse).acct_avg_amount_80))
      else none := rfl

/-- C4: Under the data-model invariant that amounts are non-negative, the
amount-vs-baseline ratio is null exactly when the (at most 80 sample)
average amount recorded in the evidence is 0; and whenever the ratio is
present, the divisor was non-zero and the ratio is the guarded, rounded
division — no division with a zero divisor is ever performed. -/
theorem build_evidence_ratio_null_iff :
    ∀ (txn : Txn) (risk : RiskAssessment) (recent reuse : List Txn),
      (∀ t ∈ recent, 0 ≤ t.amount) →
      (((build_evidence txn risk recent reuse).amount_vs_baseline_ratio = none ↔
          (build_evidence txn risk recent reuse).acct_avg_amount_80 = 0) ∧
        ∀ r, (build_evidence txn risk recent reuse).amount_vs_baseline_ratio = some r →
          (build_evidence txn risk recent reuse).acct_avg_amount_80 ≠ 0 ∧
          r = round2 (txn.amount / (build_evidence txn risk recent reuse).acct_avg_amount_80)) := by
  intro txn risk recent reuse h
  have havg := build_evidence_avg_nonneg txn risk recent reuse h
  rw [build_evidence_ratio_eq]
  by_cases hA : (build_evidence txn risk recent reuse).acct_avg_amount_80 > 0
  · rw [if_pos hA]
    constructor
    · constructor
      · intro hcontra
        exact absurd hcontra (by simp)
      · intro h0
        rw [h0] at hA
        exact absurd hA (by norm_num)
    · intro r hr
      exact ⟨ne_of_gt hA, (Option.some_inj.mp hr).symm⟩
  · rw [if_neg hA]
    constructor
    · simp only [true_iff]
      exact le_antisymm (not_lt.mp hA) havg
    · intro r hr
      exact absurd hr (by simp)

/-- Witness for C4: empty window gives a null ratio; a one-transaction
window with positive amounts gives a present ratio. -/
theorem build_evidence_ratio_null_iff_witness :
    (build_evidence sampleHighTxn (score_risk sampleHighTxn) [] []).amount_vs_baseline_ratio
        = none ∧
    (build_evidence sampleHighTxn (score_risk sampleHighTxn) [sampleLowTxn] []).amount_vs_baseline_ratio
        ≠ none :=
  ⟨(build_evidence_ratio_null_iff sampleHighTxn (score_risk sampleHighTxn) [] []
      (by simp)).1.mpr rfl,
   fun hc =>
      absurd ((build_evidence_ratio_null_iff sampleHighTxn (score_risk sampleHighTxn)
        [sampleLowTxn] [] (by with_unfolding_all decide)).1.mp hc)
        (by with_unfolding_all decide)⟩

/-! ### C3: chargeback handling in the decision engine -/

/-- A chargeback transaction whose later escalation rule (CNP + geo
mismatch + velocity ≥ 12) also fires, overwriting the action text. -/
def chargebackOverrideTxn : Txn :=
  { account_id := "7712-9999", device_id := "dev-9", ip_address := "10.0.0.9"
    amount := 500, country := "US", channel := "card_not_present"
    customer_grade := some "B", home_country := some "KE"
    transaction_type := some "P2P_SEND", transaction_status := some "chargeback" }

/-- Evidence for `chargebackOverrideTxn` over a 12-transaction window of
equal amounts: velocity proxy 12, baseline ratio 1. -/
def chargebackOverrideEvidence : Evidence :=
  build_evidence chargebackOverrideTxn (score_risk chargebackOverrideTxn)
    (List.replicate 12 chargebackOverrideTxn) []

/-- C3 counterexample: on this chargeback transaction the decision is
BLOCK, but the recommended action is not the chargeback-specific text
(the velocity escalation rule, which runs later, overwrote it) — so the
action text is not independent of the evidence. -/
theorem decide_chargeback_action_counterexample :
    chargebackOverrideTxn.transaction_status = some "chargeback" ∧
    (decide chargebackOverrideTxn (score_risk chargebackOverrideTxn)
        chargebackOverrideEvidence).decision = "BLOCK" ∧
    (decide chargebackOverrideTxn (score_risk chargebackOverrideTxn)
        chargebackOverrideEvidence).recommended_action
      ≠ "Confirmed fraud signal (chargeback): block + lock + investigation" := by
  refine ⟨rfl, ?_, ?_⟩ <;> with_unfolding_all decide

/-- C3 (amended): For every chargeback transaction the decision is BLOCK
unconditionally, regardless of risk level and evidence; the recommended
action is the chargeback-specific text whenever neither of the two later
escalation rules (CNP + geo mismatch + velocity ≥ 12; baseline ratio
≥ 6) fires. -/
theorem decide_chargeback_block :
    ∀ (txn : Txn) (risk : RiskAssessment) (ev : Evidence),
      txn.transaction_status = some "chargeback" →
      ((decide txn risk ev).decision = "BLOCK" ∧
        (¬(txn.channel = "card_not_present" ∧ (some txn.country : Option String) ≠ txn.home_country
            ∧ ev.velocity_proxy_15 ≥ 12) →
          (∀ r, ev.amount_vs_baseline_ratio = some r → ¬(r ≥ 6)) →
          (decide txn risk ev).recommended_action =
            "Confirmed fraud signal (chargeback): block + lock + investigation")) := by
  intro txn risk ev hcb
  constructor
  · simp only [decide, if_pos hcb]
    rcases hratio : ev.amount_vs_baseline_ratio with _ | r <;>
      simp only [hratio] <;> split_ifs <;> rfl
  · intro h4 h5
    simp only [decide, if_pos hcb]
    rcases hratio : ev.amount_vs_baseline_ratio with _ | r
    · simp only [hratio]
      rw [if_neg h4]
    · have h6 := h5 r hratio
      simp only [hratio]
      rw [if_neg h6, if_neg h4]

/-- The same chargeback transaction with a card-present channel, so that
no later rule fires. -/
def chargebackPlainTxn : Txn := { chargebackOverrideTxn with channel := "card_present" }

/-- Evidence for `chargebackPlainTxn` over empty windows. -/
def chargebackPlainEvidence : Evidence :=
  build_evidence chargebackPlainTxn (score_risk chargebackPlainTxn) [] []

/-- Witness for the amended C3. -/
theorem decide_chargeback_block_witness :
    (decide chargebackPlainTxn (score_risk chargebackPlainTxn) chargebackPlainEvidence).decision
      = "BLOCK" ∧
    (decide chargebackPlainTxn (score_risk chargebackPlainTxn)
        chargebackPlainEvidence).recommended_action
      = "Confirmed fraud signal (chargeback): block + lock + investigation" :=
  ⟨(decide_chargeback_block chargebackPlainTxn (score_risk chargebackPlainTxn)
      chargebackPlainEvidence rfl).1,
   (decide_chargeback_block chargebackPlainTxn (score_risk chargebackPlainTxn)
      chargebackPlainEvidence rfl).2
     (by intro h; exact absurd h.1 (by decide))
     (by
        intro r hr
        rw [show chargebackPlainEvidence.amount_vs_baseline_ratio = none from rfl] at hr
        exact Option.noConfusion hr)⟩

/-! ### C6: the baseline-ratio rule has the final word -/

/-- C6: Whenever the evidence carries a non-null baseline ratio ≥ 6.0,
`decide` returns BLOCK with rule 5's specific action text, no matter what
any earlier rule set; and the CRITICAL-level path also always ends in
decision BLOCK, so the two paths converge on BLOCK. -/
theorem decide_ratio_rule_final :
    (∀ (txn : Txn) (risk : RiskAssessment) (ev : Evidence) (r : ℚ),
        ev.amount_vs_baseline_ratio = some r → r ≥ 6 →
        decide txn risk ev =
          { decision := "BLOCK"
            recommended_action := "High-confidence fraud: amount extremely above baseline" }) ∧
    (∀ (txn : Txn) (risk : RiskAssessment) (ev : Evidence),
        risk.risk_level = "CRITICAL" → (decide txn risk ev).decision = "BLOCK") := by
  constructor
  · intro txn risk ev r hr h6
    simp only [decide, hr]
    rw [if_pos h6]
  · intro txn risk ev hc
    simp only [decide, if_pos hc]
    rcases hratio : ev.amount_vs_baseline_ratio with _ | r <;>
      simp only [hratio] <;> split_ifs <;> rfl

/-- Evidence whose baseline ratio evaluates to 90 (amount 900 against a
single historical amount of 10). -/
def ratioSpikeEvidence : Evidence :=
  build_evidence sampleHighTxn (score_risk sampleHighTxn) [sampleLowTxn] []

/-- A transaction that scores CRITICAL (the worked HIGH example plus a
chargeback status). -/
def criticalTxn : Txn := { sampleHighTxn with transaction_status := some "chargeback" }

/-- Witness for C6: the ratio path and the CRITICAL path both end in
BLOCK, the former with rule 5's action text. -/
theorem decide_ratio_rule_final_witness :
    decide sampleHighTxn (score_risk sampleHighTxn) ratioSpikeEvidence =
      { decision := "BLOCK"
        recommended_action := "High-confidence fraud: amount extremely above baseline" } ∧
    (decide criticalTxn (score_risk criticalTxn)
        (build_evidence criticalTxn (score_risk criticalTxn) [] [])).decision = "BLOCK" :=
  ⟨decide_ratio_rule_final.1 sampleHighTxn (score_risk sampleHighTxn) ratioSpikeEvidence 90
      (by with_unfolding_all rfl) (by decide),
   decide_ratio_rule_final.2 criticalTxn (score_risk criticalTxn)
      (build_evidence criticalTxn (score_risk criticalTxn) [] []) rfl⟩

/-! ### C9: rationale list — fixed order, head statement, determinism -/

/-- The six conditional statements of `investigator_rationale`, in the
fixed source order, as (condition, statement) pairs. -/
def rationaleConds (txn : Txn) (evidence : Evidence) : List (Bool × String) :=
  [ (Decidable.decide ((some txn.country : Option String) ≠ txn.home_country),
     "Geo mismatch relative to account profile."),
    ((match evidence.amount_vs_baseline_ratio with
      | some ratio => Decidable.decide (ratio ≥ 3)
      | none => false),
     "Amount significantly above account baseline (>=3x)."),
    (Decidable.decide (evidence.velocity_proxy_15 ≥ 12),
     "High velocity behavior consistent with burst activity."),
    (Decidable.decide ((txn.transaction_type = some "P2P_SEND" ∨ txn.transaction_type = some "CASHOUT")
        ∧ txn.channel = "card_not_present"),
     "High-risk type combined with CNP channel increases fraud likelihood."),
    ((match evidence.ip_or_device_reuse_accounts_top with
      | [] => false
      | top :: _ => Decidable.decide (top.2 ≥ 6)),
     "IP/device reuse pattern across multiple accounts is suspicious."),
    (Decidable.decide (txn.transaction_status = some "chargeback"),
     "Chargeback observed (strong fraud confirmation signal).") ]

/-- A conditional append of a single element commutes into an appended
conditional segment. -/
lemma append_ite_singleton (c : Prop) [Decidable c] (a : List String) (s : String) :
    (if c then a ++ [s] else a) = a ++ (if c then [s] else []) := by
  split_ifs <;> simp

/-- Filtering then projecting a cons of a (condition, statement) pair
yields the conditional segment followed by the rest. -/
lemma filter_cond_cons (b : Bool) (s : String) (rest : List (Bool × String)) :
    (((b, s) :: rest).filter (fun p => p.1)).map (fun p => p.2) =
      (if b = true then [s] else []) ++ (rest.filter (fun p => p.1)).map (fun p => p.2) := by
  cases b <;> simp [List.filter_cons]

/-- A conditional segment guarded by a decided proposition equals the one
guarded by the proposition itself. -/
lemma ite_decide_singleton (P : Prop) [Decidable P] (s : String) :
    (if Decidable.decide P = true then [s] else ([] : List String)) = if P then [s] else [] := by
  by_cases h : P <;> simp [h]

/-- C9: For every input, the rationale list starts with the risk-level-
plus-score statement and continues with exactly the applicable conditional
statements of `rationaleConds`, in that fixed order (the conditions are
not mutually exclusive — every applicable one contributes); and the
function is deterministic: equal inputs give an identical list. -/
theorem investigator_rationale_fixed_order :
    ∀ (txn : Txn) (risk : RiskAssessment) (evidence : Evidence),
      (investigator_rationale txn risk evidence =
        ("Risk " ++ risk.risk_level ++ " (score=" ++ toString risk.risk_score ++ ").") ::
          ((rationaleConds txn evidence).filter (fun p => p.1)).map (fun p => p.2)) ∧
      (∀ (txn2 : Txn) (risk2 : RiskAssessment) (ev2 : Evidence),
        txn2 = txn → risk2 = risk → ev2 = evidence →
        investigator_rationale txn2 risk2 ev2 = investigator_rationale txn risk evidence) := by
  intro txn risk evidence
  constructor
  · rcases h1 : evidence.amount_vs_baseline_ratio with _ | r <;>
      rcases h2 : evidence.ip_or_device_reuse_accounts_top with _ | ⟨top, rest⟩ <;>
        (simp only [investigator_rationale, rationaleConds, h1, h2,
          append_ite_singleton, filter_cond_cons, ite_decide_singleton,
          List.filter_nil, List.map_nil, Bool.false_eq_true, if_false];
         simp only [List.append_nil, List.append_assoc, List.singleton_append,
          List.cons_append, List.nil_append])
  · intro txn2 risk2 ev2 e1 e2 e3
    rw [e1, e2, e3]

/-- Witness for C9 on the worked HIGH example with a spiking ratio. -/
theorem investigator_rationale_fixed_order_witness :
    investigator_rationale sampleHighTxn (score_risk sampleHighTxn) ratioSpikeEvidence =
      ["Risk HIGH (score=79).",
       "Geo mismatch relative to account profile.",
       "Amount significantly above account baseline (>=3x).",
       "High-risk type combined with CNP channel increases fraud likelihood."] ∧
    investigator_rationale sampleHighTxn (score_risk sampleHighTxn) ratioSpikeEvidence =
      investigator_rationale sampleHighTxn (score_risk sampleHighTxn) ratioSpikeEvidence := by
  constructor
  · rw [(investigator_rationale_fixed_order sampleHighTxn (score_risk sampleHighTxn)
      ratioSpikeEvidence).1]
    with_unfolding_all decide
  · exact (investigator_rationale_fixed_order sampleHighTxn (score_risk sampleHighTxn)
      ratioSpikeEvidence).2 sampleHighTxn (score_risk sampleHighTxn) ratioSpikeEvidence rfl rfl rfl

end FraudCore
